import Mathlib

/-!
Verification of the message-relay microservices (ingress API and SQS consumer).

The ingress service (`service1-api/app.py`) is embedded as pure functions over
a JSON value type with Python's membership/subscript semantics, with the SSM
parameter store, the token cache and the SQS client passed in explicitly.
The consumer (`service2-consumer/app.py`) is embedded with the S3 object store
as an explicit key/value association list and the per-message S3/SQS outcomes
passed in as booleans.
-/

set_option autoImplicit false

namespace Relay

/-- A JSON value, as produced by `request.get_json()` / `json.loads`.
Objects model Python dicts, which have unique keys after parsing;
numbers are restricted to integers (no claim depends on float values). -/
inductive JVal where
  | jnull
  | jbool (b : Bool)
  | jnum (n : Int)
  | jstr (s : String)
  | jarr (xs : List JVal)
  | jobj (kvs : List (String × JVal))

/-- The Python exceptions the embedded code can raise. -/
inductive PyExc where
  | typeError
  | keyError
  deriving DecidableEq

/-- Substring test on character lists, embedding Python's `needle in hay`
for strings (the empty needle is contained in everything). -/
def strContains (needle : List Char) : List Char → Bool
  | [] => needle.isPrefixOf []
  | c :: t => needle.isPrefixOf (c :: t) || strContains needle t

/-- Key lookup in a JSON object (Python dict lookup; keys are unique). -/
def lookupJ : List (String × JVal) → String → Option JVal
  | [], _ => none
  | (k', v) :: t, k => if k' == k then some v else lookupJ t k

/-- Whether a JSON object has a key. -/
def hasKey : List (String × JVal) → String → Bool
  | [], _ => false
  | (k', _) :: t, k => k' == k || hasKey t k

/-- Python's `k in v` for a string `k`: key membership for dicts, element
equality for lists, substring for strings; `TypeError` otherwise. -/
def pyContains (v : JVal) (k : String) : Except PyExc Bool :=
  match v with
  | .jobj kvs => .ok (hasKey kvs k)
  | .jarr xs => .ok (xs.any (fun x => match x with | .jstr t => t == k | _ => false))
  | .jstr s => .ok (strContains k.toList s.toList)
  | _ => .error .typeError

/-- Python's `v[k]` for a string `k`: dict lookup (`KeyError` when absent),
`TypeError` on any non-dict value. -/
def pyGetItem (v : JVal) (k : String) : Except PyExc JVal :=
  match v with
  | .jobj kvs =>
    match lookupJ kvs k with
    | some x => .ok x
    | none => .error .keyError
  | _ => .error .typeError

/-- `required_fields` from `validate_payload` in service1-api/app.py. -/
def required_fields : List String :=
  ["email_subject", "email_sender", "email_timestream", "email_content"]

/-- The list comprehension
`[field for field in required_fields if field not in data]`:
memberships are evaluated left to right and the first `TypeError` propagates. -/
def missingFields (data : JVal) : List String → Except PyExc (List String)
  | [] => .ok []
  | f :: fs =>
    match pyContains data f with
    | .error e => .error e
    | .ok b =>
      match missingFields data fs with
      | .error e => .error e
      | .ok rest => .ok (if b then rest else f :: rest)

/-- `validate_payload` from service1-api/app.py: checks `data` presence, then
`token` presence, then the four required fields of `data`, first failure
winning; the membership tests on `data` can raise `TypeError` (line 63). -/
def validate_payload (payload : JVal) : Except PyExc (Bool × Option String) :=
  match pyContains payload "data" with
  | .error e => .error e
  | .ok hasData =>
    if hasData = false then .ok (false, some "Missing 'data' field")
    else
      match pyContains payload "token" with
      | .error e => .error e
      | .ok hasToken =>
        if hasToken = false then .ok (false, some "Missing 'token' field")
        else
          match pyGetItem payload "data" with
          | .error e => .error e
          | .ok data =>
            match missingFields data required_fields with
            | .error e => .error e
            | .ok missing =>
              if missing.isEmpty then .ok (true, none)
              else .ok (false, some ("Missing required fields in data: " ++
                String.intercalate ", " missing))

/-- Python truthiness of the `api_token_cache` global (`if api_token_cache:`):
`None` and the empty string are falsy. -/
def pyTruthy : Option String → Bool
  | none => false
  | some s => !(s == "")

/-- `get_api_token` from service1-api/app.py. `ssm` is the outcome the SSM
`get_parameter` call would have (`.error` = `ClientError`, re-raised after
logging); `cache` is the `api_token_cache` global. Returns the call's result,
the new cache value, and whether a backing-store fetch occurred. -/
def get_api_token (ssm : Except String String) (cache : Option String) :
    Except String String × Option String × Bool :=
  if pyTruthy cache then (.ok (cache.getD ""), cache, false)
  else
    match ssm with
    | .ok v => (.ok v, some v, true)
    | .error e => (.error e, cache, true)

/-- The `api_token_cache` global plus a count of SSM fetches performed by the
process so far. -/
structure TokenProc where
  cache : Option String
  fetches : Nat
  deriving DecidableEq

/-- One call to `get_api_token` in a process whose next SSM outcome is `ssm`. -/
def callGetApiToken (ssm : Except String String) (s : TokenProc) :
    Except String String × TokenProc :=
  match get_api_token ssm s.cache with
  | (r, c, fetched) => (r, ⟨c, s.fetches + (if fetched then 1 else 0)⟩)

/-- A sequence of `get_api_token` calls, each with its would-be SSM outcome. -/
def runGetApiToken (ssms : List (Except String String)) (s : TokenProc) : TokenProc :=
  ssms.foldl (fun st v => (callGetApiToken v st).2) s

/-- Python `provided_token == expected_token` where `expected_token` is a
string and `provided_token` came out of a parsed JSON payload: equality with
any non-string value is `False`. -/
def pyEqStr (v : JVal) (s : String) : Bool :=
  match v with
  | .jstr t => t == s
  | _ => false

/-- `validate_token` from service1-api/app.py: compares the provided token
with the SSM-backed one; the bare `except Exception` turns a fetch failure
into `(False, "Token validation failed")`. Returns the `(is_valid, error)`
pair and the new cache value. -/
def validate_token (ssm : Except String String) (cache : Option String)
    (provided : JVal) : (Bool × Option String) × Option String :=
  match get_api_token ssm cache with
  | (.ok expected, cache', _) =>
    if pyEqStr provided expected then ((true, none), cache')
    else ((false, some "Invalid ???token"), cache')
  | (.error _, cache', _) => ((false, some "Token validation failed"), cache')

/-- An HTTP response: status code and JSON body (as built by `jsonify`). -/
structure HttpResponse where
  status : Nat
  body : JVal

/-- `jsonify` of an optional string (`None` becomes JSON `null`). -/
def jOfOptStr : Option String → JVal
  | some s => .jstr s
  | none => .jnull

/-- The `POST /api/message` handler `process_message` from
service1-api/app.py. `is_json` is `request.is_json`; `payload` the parsed
body; `ssm` the would-be SSM outcome; `cache` the `api_token_cache` global;
`sqs` the would-be `send_message` outcome (`.ok` = the queue-assigned
`MessageId`, `.error` = `str(e)` of the `ClientError`). Returns the response,
the new cache value, and the list of `data` objects handed to `send_to_sqs`
(which JSON-encodes them as the message body); an uncaught Python exception
is `.error`. -/
def process_message (is_json : Bool) (payload : JVal) (ssm : Except String String)
    (cache : Option String) (sqs : Except String String) :
    Except PyExc (HttpResponse × Option String × List JVal) :=
  if is_json = false then
    .ok (⟨400, .jobj [("error", .jstr "Content-Type must be application/json")]⟩, cache, [])
  else
    match validate_payload payload with
    | .error e => .error e
    | .ok (is_valid, error_msg) =>
      if is_valid = false then
        .ok (⟨400, .jobj [("error", jOfOptStr error_msg)]⟩, cache, [])
      else
        match pyGetItem payload "token" with
        | .error e => .error e
        | .ok tok =>
          match validate_token ssm cache tok with
          | ((tokValid, tokErr), cache') =>
            if tokValid = false then
              .ok (⟨401, .jobj [("error", jOfOptStr tokErr)]⟩, cache', [])
            else
              match pyGetItem payload "data" with
              | .error e => .error e
              | .ok data =>
                match sqs with
                | .error e =>
                  .ok (⟨500, .jobj [("error", .jstr ("Failed to send message: " ++ e))]⟩,
                    cache', [data])
                | .ok mid =>
                  .ok (⟨200, .jobj [("status", .jstr "success"),
                    ("message", .jstr "Message sent to queue"),
                    ("message_id", .jstr mid)]⟩, cache', [data])

/-- A UTC calendar date, the `datetime.utcnow()` fields used by the consumer. -/
structure UtcDate where
  year : Nat
  month : Nat
  day : Nat

/-- Python's `:02d` format: zero-pad to two digits. -/
def pad2 (n : Nat) : String :=
  if n < 10 then "0" ++ toString n else toString n

/-- The `s3_key` computed in `upload_to_s3` (service2-consumer/app.py line 32)
from the current UTC date and the queue-assigned message id. -/
def s3MessageKey (now : UtcDate) (message_id : String) : String :=
  "messages/" ++ toString now.year ++ "/" ++ pad2 now.month ++ "/" ++
    pad2 now.day ++ "/" ++ message_id ++ ".json"

/-- Modelled from the spec's words: the key shape
`messages/` year `/` two-digit month `/` two-digit day `/` message id `.json`,
to be compared with the key the source computes. -/
def specMessageKey (year month day : Nat) (message_id : String) : String :=
  "messages/" ++ toString year ++ "/" ++ pad2 month ++ "/" ++ pad2 day ++ "/" ++
    message_id ++ ".json"

/-- An S3 `put_object`: storing under an existing key overwrites it (the
bucket keeps one object per key). -/
def storePut (objects : List (String × JVal)) (key : String) (body : JVal) :
    List (String × JVal) :=
  objects.filter (fun kv => !(kv.1 == key)) ++ [(key, body)]

/-- `upload_to_s3` from service2-consumer/app.py. `putOk` is the outcome of
the `put_object` call (`false` = `ClientError`, caught and turned into a
`False` return, leaving the bucket unchanged). Returns the success flag and
the new bucket contents. -/
def upload_to_s3 (putOk : Bool) (now : UtcDate) (objects : List (String × JVal))
    (message_data : JVal) (message_id : String) : Bool × List (String × JVal) :=
  let s3_key := s3MessageKey now message_id
  if putOk then (true, storePut objects s3_key message_data)
  else (false, objects)

/-- A message received from SQS, as used by the consumer: `ReceiptHandle`,
`MessageId`, and the outcome of `json.loads` on its `Body`
(`none` = `JSONDecodeError`). -/
structure SqsMessage where
  receiptHandle : String
  messageId : String
  bodyParse : Option JVal

/-- `process_message` from service2-consumer/app.py: parse the body, upload
to S3, and only then delete from the queue. `putOk` is the `put_object`
outcome and `delOk` the `delete_message` outcome (a raising delete is caught
by the bare `except` and makes the call return `False` after the delete was
attempted). Returns the success flag, the new bucket contents, and the
receipt handles whose deletion was attempted. -/
def consumer_process_message (putOk delOk : Bool) (now : UtcDate)
    (msg : SqsMessage) (objects : List (String × JVal)) :
    Bool × List (String × JVal) × List String :=
  match msg.bodyParse with
  | none => (false, objects, [])
  | some message_data =>
    match upload_to_s3 putOk now objects message_data msg.messageId with
    | (false, objects') => (false, objects', [])
    | (true, objects') => (delOk, objects', [msg.receiptHandle])

/-- Whether one received message's processing succeeds, given its own
`put_object` and `delete_message` outcomes (independent of the rest of the
batch and of the bucket contents). -/
def msgSuccess (m : SqsMessage × Bool × Bool) : Bool :=
  match m.1.bodyParse with
  | none => false
  | some _ => m.2.1 && m.2.2

/-- `poll_sqs` from service2-consumer/app.py. `recv` is the outcome of the
long-poll `receive_message` (`.error` = `ClientError`, caught, returning 0);
each received message is paired with its own `put_object` and
`delete_message` outcomes. Returns the count of successfully processed
messages, the new bucket contents, and all attempted deletions. -/
def poll_sqs (now : UtcDate) (recv : Except String (List (SqsMessage × Bool × Bool)))
    (objects : List (String × JVal)) : Nat × List (String × JVal) × List String :=
  match recv with
  | .error _ => (0, objects, [])
  | .ok msgs =>
    msgs.foldl (fun acc m =>
      match consumer_process_message m.2.1 m.2.2 now m.1 acc.2.1 with
      | (ok, objects', dels) =>
        (acc.1 + (if ok then 1 else 0), objects', acc.2.2 ++ dels))
      (0, objects, [])

/-! ### Helper lemmas -/

theorem hasKey_of_lookupJ {kvs : List (String × JVal)} {k : String} {v : JVal}
    (h : lookupJ kvs k = some v) : hasKey kvs k = true := by
  induction kvs with
  | nil => simp [lookupJ] at h
  | cons kv t ih =>
    obtain ⟨k', v'⟩ := kv
    simp only [lookupJ] at h
    simp only [hasKey]
    cases hk : (k' == k) with
    | true => simp
    | false =>
      rw [hk] at h
      simp only [Bool.false_or]
      simp only [Bool.false_eq_true, if_false] at h
      exact ih h

theorem lookupJ_of_hasKey {kvs : List (String × JVal)} {k : String}
    (h : hasKey kvs k = true) : ∃ v, lookupJ kvs k = some v := by
  induction kvs with
  | nil => simp [hasKey] at h
  | cons kv t ih =>
    obtain ⟨k', v'⟩ := kv
    simp only [hasKey] at h
    cases hk : (k' == k) with
    | true => exact ⟨v', by simp [lookupJ, hk]⟩
    | false =>
      rw [hk, Bool.false_or] at h
      obtain ⟨v, hv⟩ := ih h
      exact ⟨v, by simp [lookupJ, hk, hv]⟩

theorem missingFields_obj (dkvs : List (String × JVal)) (fs : List String) :
    missingFields (.jobj dkvs) fs = .ok (fs.filter (fun f => !(hasKey dkvs f))) := by
  induction fs with
  | nil => rfl
  | cons f fs ih =>
    simp only [missingFields, pyContains, ih, List.filter_cons]
    by_cases hb : hasKey dkvs f
    · simp [hb]
    · simp [hb]

theorem validate_payload_ok {payload : JVal}
    (h : validate_payload payload = .ok (true, none)) :
    ∃ kvs, payload = .jobj kvs ∧ (∃ t, pyGetItem payload "token" = .ok t) ∧
      (∃ d, pyGetItem payload "data" = .ok d) := by
  cases payload with
  | jnull => simp [validate_payload, pyContains] at h
  | jbool b => simp [validate_payload, pyContains] at h
  | jnum n => simp [validate_payload, pyContains] at h
  | jstr s =>
    exfalso
    simp only [validate_payload, pyContains, pyGetItem] at h
    split at h
    · simp_all
    · split at h <;> simp_all
  | jarr xs =>
    exfalso
    simp only [validate_payload, pyContains, pyGetItem] at h
    split at h
    · simp_all
    · split at h <;> simp_all
  | jobj kvs =>
    refine ⟨kvs, rfl, ?_, ?_⟩
    · simp only [validate_payload, pyContains] at h
      by_cases hd : hasKey kvs "data"
      · by_cases ht : hasKey kvs "token"
        · obtain ⟨v, hv⟩ := lookupJ_of_hasKey ht
          exact ⟨v, by simp [pyGetItem, hv]⟩
        · simp [hd, ht] at h
      · simp [hd] at h
    · simp only [validate_payload, pyContains] at h
      by_cases hd : hasKey kvs "data"
      · obtain ⟨v, hv⟩ := lookupJ_of_hasKey hd
        exact ⟨v, by simp [pyGetItem, hv]⟩
      · simp [hd] at h

theorem runGetApiToken_fixed (ws : List (Except String String)) (st : TokenProc)
    (h : pyTruthy st.cache = true) : runGetApiToken ws st = st := by
  induction ws with
  | nil => rfl
  | cons w ws ih =>
    have hstep : (callGetApiToken w st).2 = st := by
      simp [callGetApiToken, get_api_token, h]
    simp [runGetApiToken, List.foldl_cons, hstep] at ih ⊢
    exact ih

theorem storePut_filter (objects : List (String × JVal)) (key : String) (body : JVal) :
    (storePut objects key body).filter (fun kv => kv.1 == key) = [(key, body)] := by
  simp only [storePut, List.filter_append]
  have h1 : ∀ t : List (String × JVal),
      (t.filter (fun kv => !(kv.1 == key))).filter (fun kv => kv.1 == key) = [] := by
    intro t
    induction t with
    | nil => rfl
    | cons kv t ih =>
      simp only [List.filter_cons]
      cases hk : (kv.1 == key) with
      | true => simp [hk, ih]
      | false => simp only [hk, Bool.not_false, if_true, List.filter_cons, hk,
          Bool.false_eq_true, if_false]; exact ih
  rw [h1]
  simp [List.filter_cons]

theorem consumer_success_eq (m : SqsMessage × Bool × Bool) (now : UtcDate)
    (objects : List (String × JVal)) :
    (consumer_process_message m.2.1 m.2.2 now m.1 objects).1 = msgSuccess m := by
  obtain ⟨msg, putOk, delOk⟩ := m
  cases hb : msg.bodyParse with
  | none => simp [consumer_process_message, msgSuccess, hb]
  | some md =>
    cases putOk <;> simp [consumer_process_message, msgSuccess, hb, upload_to_s3]

theorem poll_sqs_count_loop (now : UtcDate) (msgs : List (SqsMessage × Bool × Bool))
    (acc : Nat × List (String × JVal) × List String) :
    (msgs.foldl (fun acc m =>
      match consumer_process_message m.2.1 m.2.2 now m.1 acc.2.1 with
      | (ok, objects', dels) =>
        (acc.1 + (if ok then 1 else 0), objects', acc.2.2 ++ dels)) acc).1 =
      acc.1 + (msgs.filter msgSuccess).length := by
  induction msgs generalizing acc with
  | nil => simp
  | cons m ms ih =>
    simp only [List.foldl_cons]
    rw [ih]
    rcases hcp : consumer_process_message m.2.1 m.2.2 now m.1 acc.2.1 with ⟨ok, objs', dels⟩
    have hok : ok = msgSuccess m := by
      have hs := consumer_success_eq m now acc.2.1
      rw [hcp] at hs
      exact hs
    simp only [hcp, List.filter_cons]
    subst hok
    cases h : msgSuccess m with
    | true => simp [h]; omega
    | false => simp [h]

/-! ### Claim theorems -/

/-- C2: when `data` and `token` are present but required fields are missing
from the `data` record, `validate_payload` fails with a reason naming exactly
the missing fields, comma-joined, in the fixed order of `required_fields`;
and the checks run in order with the first failure winning (absent `data`
before absent `token` before missing sub-fields). -/
theorem validate_payload_missing_fields_spec :
    (∀ kvs : List (String × JVal), hasKey kvs "data" = false →
      validate_payload (.jobj kvs) = .ok (false, some "Missing 'data' field")) ∧
    (∀ kvs : List (String × JVal), hasKey kvs "data" = true → hasKey kvs "token" = false →
      validate_payload (.jobj kvs) = .ok (false, some "Missing 'token' field")) ∧
    (∀ (kvs dkvs : List (String × JVal)), hasKey kvs "token" = true →
      lookupJ kvs "data" = some (.jobj dkvs) →
      required_fields.filter (fun f => !(hasKey dkvs f)) ≠ [] →
      validate_payload (.jobj kvs) = .ok (false, some ("Missing required fields in data: " ++
        String.intercalate ", " (required_fields.filter (fun f => !(hasKey dkvs f))))) ∧
      (required_fields.filter (fun f => !(hasKey dkvs f))).Sublist required_fields ∧
      (∀ f, f ∈ required_fields.filter (fun f => !(hasKey dkvs f)) ↔
        (f ∈ required_fields ∧ hasKey dkvs f = false))) := by
  refine ⟨?_, ?_, ?_⟩
  · intro kvs h
    simp [validate_payload, pyContains, h]
  · intro kvs hd ht
    simp [validate_payload, pyContains, hd, ht]
  · intro kvs dkvs ht hd hne
    have hdk : hasKey kvs "data" = true := hasKey_of_lookupJ hd
    have hmf := missingFields_obj dkvs required_fields
    have hemp : (required_fields.filter (fun f => !(hasKey dkvs f))).isEmpty = false := by
      cases hl : required_fields.filter (fun f => !(hasKey dkvs f)) with
      | nil => exact absurd hl hne
      | cons a l => rfl
    refine ⟨?_, List.filter_sublist _, ?_⟩
    · simp [validate_payload, pyContains, hdk, ht, pyGetItem, hd, hmf, hemp]
    · intro f
      simp [List.mem_filter, Bool.not_eq_true']

/-- Witness for C2: an envelope whose `data` has only `email_sender` is
rejected with the other three field names, in order. -/
theorem validate_payload_missing_fields_spec_witness :
    validate_payload (.jobj [("data", .jobj [("email_sender", .jstr "a")]),
        ("token", .jstr "t")]) =
      .ok (false, some
        "Missing required fields in data: email_subject, email_timestream, email_content") :=
  (validate_payload_missing_fields_spec.2.2
    [("data", .jobj [("email_sender", .jstr "a")]), ("token", .jstr "t")]
    [("email_sender", .jstr "a")] rfl rfl (by decide)).1

/-- C10: when `data` and `token` are present but `data` is a number, the
membership test `field not in data` raises an uncaught `TypeError`, so
`validate_payload` raises instead of returning a failure and the handler
does not produce the 400 validation response. -/
theorem validate_payload_noncontainer_data_raises :
    validate_payload (.jobj [("data", .jnum 5), ("token", .jstr "t")]) =
      .error .typeError ∧
    ∀ (ssm : Except String String) (cache : Option String) (sqs : Except String String),
      process_message true (.jobj [("data", .jnum 5), ("token", .jstr "t")]) ssm cache sqs =
        .error .typeError := by
  exact ⟨rfl, fun ssm cache sqs => rfl⟩

/-- C1 counterexample: a request whose token ("wrong") differs from the
configured secret ("secret") but whose payload misses all four required data
fields gets 400 from payload validation, not the claimed 401. -/
theorem ingress_401_regardless_counterexample :
    ("wrong" : String) ≠ "secret" ∧
    process_message true (.jobj [("data", .jobj []), ("token", .jstr "wrong")])
        (.ok "secret") (some "secret") (.ok "mid") =
      .ok (⟨400, .jobj [("error", .jstr
        "Missing required fields in data: email_subject, email_sender, email_timestream, email_content")]⟩,
        some "secret", []) :=
  ⟨by decide, rfl⟩

/-- C1 (amended): payload validation runs first, so an invalid payload gets
400 regardless of the token; a request that passes validation and carries a
token differing from the successfully fetched secret gets 401. -/
theorem ingress_validation_precedes_token_check
    (payload : JVal) (ssm : Except String String) (cache cache' : Option String)
    (fetched : Bool) (secret : String) (sqs : Except String String) (r : String) :
    (validate_payload payload = .ok (false, some r) →
      process_message true payload ssm cache sqs =
        .ok (⟨400, .jobj [("error", .jstr r)]⟩, cache, [])) ∧
    (validate_payload payload = .ok (true, none) →
      ∀ tok, pyGetItem payload "token" = .ok tok →
        get_api_token ssm cache = (.ok secret, cache', fetched) →
        pyEqStr tok secret = false →
        process_message true payload ssm cache sqs =
          .ok (⟨401, .jobj [("error", .jstr "Invalid ???token")]⟩, cache', [])) := by
  constructor
  · intro hv
    simp [process_message, hv, jOfOptStr]
  · intro hv tok htok hget hne
    simp [process_message, hv, htok, validate_token, hget, hne, jOfOptStr]

/-- Witness for C1 (amended): a valid envelope with the wrong token gets 401. -/
theorem ingress_validation_precedes_token_check_witness :
    process_message true
        (.jobj [("data", .jobj [("email_subject", .jstr "S"), ("email_sender", .jstr "a"),
          ("email_timestream", .jstr "t"), ("email_content", .jstr "C")]),
          ("token", .jstr "wrong")])
        (.ok "secret") (some "secret") (.ok "mid") =
      .ok (⟨401, .jobj [("error", .jstr "Invalid ???token")]⟩, some "secret", []) :=
  (ingress_validation_precedes_token_check
    (.jobj [("data", .jobj [("email_subject", .jstr "S"), ("email_sender", .jstr "a"),
      ("email_timestream", .jstr "t"), ("email_content", .jstr "C")]),
      ("token", .jstr "wrong")])
    (.ok "secret") (some "secret") (some "secret") false "secret" (.ok "mid") "x").2
    rfl (.jstr "wrong") rfl rfl (by decide)

/-- C4 (code bug): on a token mismatch the service does return 401, but the
error message is "Invalid ???token", not the documented "invalid token" (the
repo's own test asserts that "Invalid token" occurs in the message). -/
theorem ingress_invalid_token_message_bug :
    process_message true
        (.jobj [("data", .jobj [("email_subject", .jstr "S"), ("email_sender", .jstr "a"),
          ("email_timestream", .jstr "t"), ("email_content", .jstr "C")]),
          ("token", .jstr "wrong-token")])
        (.ok "correct-token") none (.ok "mid") =
      .ok (⟨401, .jobj [("error", .jstr "Invalid ???token")]⟩, some "correct-token", []) ∧
    ("Invalid ???token" : String) ≠ "invalid token" :=
  ⟨rfl, by decide⟩

/-- C5: a valid envelope whose token equals the fetched secret causes exactly
one queue enqueue, of the envelope's `data` object (JSON-encoded by
`send_to_sqs`), and a 200 response whose body carries status "success", the
fixed message, and the queue-assigned id. -/
theorem ingress_success_enqueues_once
    (payload data : JVal) (ssm : Except String String) (cache cache' : Option String)
    (fetched : Bool) (secret mid : String)
    (hvalid : validate_payload payload = .ok (true, none))
    (htok : pyGetItem payload "token" = .ok (.jstr secret))
    (hget : get_api_token ssm cache = (.ok secret, cache', fetched))
    (hdata : pyGetItem payload "data" = .ok data) :
    process_message true payload ssm cache (.ok mid) =
      .ok (⟨200, .jobj [("status", .jstr "success"),
        ("message", .jstr "Message sent to queue"),
        ("message_id", .jstr mid)]⟩, cache', [data]) := by
  simp [process_message, hvalid, htok, validate_token, hget, pyEqStr, hdata]

/-- Witness for C5: the spec's end-to-end envelope with the correct token. -/
theorem ingress_success_enqueues_once_witness :
    process_message true
        (.jobj [("data", .jobj [("email_subject", .jstr "S"),
          ("email_sender", .jstr "a@b.com"),
          ("email_timestream", .jstr "2024-01-01T00:00:00Z"),
          ("email_content", .jstr "C")]), ("token", .jstr "T")])
        (.ok "T") none (.ok "mid-1") =
      .ok (⟨200, .jobj [("status", .jstr "success"),
        ("message", .jstr "Message sent to queue"),
        ("message_id", .jstr "mid-1")]⟩, some "T",
        [.jobj [("email_subject", .jstr "S"), ("email_sender", .jstr "a@b.com"),
          ("email_timestream", .jstr "2024-01-01T00:00:00Z"),
          ("email_content", .jstr "C")]]) :=
  ingress_success_enqueues_once
    (.jobj [("data", .jobj [("email_subject", .jstr "S"),
      ("email_sender", .jstr "a@b.com"),
      ("email_timestream", .jstr "2024-01-01T00:00:00Z"),
      ("email_content", .jstr "C")]), ("token", .jstr "T")])
    (.jobj [("email_subject", .jstr "S"), ("email_sender", .jstr "a@b.com"),
      ("email_timestream", .jstr "2024-01-01T00:00:00Z"),
      ("email_content", .jstr "C")])
    (.ok "T") none (some "T") true "T" "mid-1" rfl rfl rfl rfl

/-- C7: when the payload passes validation but the SSM fetch raises, the
response is 401 with the generic "Token validation failed" body, for every
underlying error string (so the error detail is not surfaced). -/
theorem ingress_secret_fetch_failure_generic_401
    (payload : JVal) (e : String) (cache : Option String) (sqs : Except String String)
    (hvalid : validate_payload payload = .ok (true, none))
    (hcache : pyTruthy cache = false) :
    process_message true payload (.error e) cache sqs =
      .ok (⟨401, .jobj [("error", .jstr "Token validation failed")]⟩, cache, []) := by
  obtain ⟨kvs, hp, ⟨t, ht⟩, -⟩ := validate_payload_ok hvalid
  subst hp
  simp [process_message, hvalid, ht, validate_token, get_api_token, hcache, jOfOptStr]

/-- Witness for C7: a valid envelope while the parameter store is down. -/
theorem ingress_secret_fetch_failure_generic_401_witness :
    process_message true
        (.jobj [("data", .jobj [("email_subject", .jstr "S"), ("email_sender", .jstr "a"),
          ("email_timestream", .jstr "t"), ("email_content", .jstr "C")]),
          ("token", .jstr "T")])
        (.error "An error occurred (InternalServerError)") none (.ok "mid") =
      .ok (⟨401, .jobj [("error", .jstr "Token validation failed")]⟩, none, []) :=
  ingress_secret_fetch_failure_generic_401
    (.jobj [("data", .jobj [("email_subject", .jstr "S"), ("email_sender", .jstr "a"),
      ("email_timestream", .jstr "t"), ("email_content", .jstr "C")]),
      ("token", .jstr "T")])
    "An error occurred (InternalServerError)" none (.ok "mid") rfl rfl

/-- C3: the consumer attempts the queue delete only after S3 persistence of
the message succeeds: a malformed body or a failed upload returns failure
with no delete attempted, and any attempted delete implies the upload
succeeded and the stored object is the parsed body under the message's key. -/
theorem consumer_deletes_only_after_persist
    (putOk delOk : Bool) (now : UtcDate) (msg : SqsMessage)
    (objects : List (String × JVal)) :
    (msg.bodyParse = none →
      consumer_process_message putOk delOk now msg objects = (false, objects, [])) ∧
    (putOk = false →
      consumer_process_message putOk delOk now msg objects = (false, objects, [])) ∧
    ((consumer_process_message putOk delOk now msg objects).2.2 ≠ [] →
      putOk = true ∧ ∃ md, msg.bodyParse = some md ∧
        (consumer_process_message putOk delOk now msg objects).2.1 =
          storePut objects (s3MessageKey now msg.messageId) md) := by
  obtain ⟨rh, mid, bp⟩ := msg
  refine ⟨?_, ?_, ?_⟩
  · intro h
    simp only at h
    subst h
    rfl
  · intro h
    subst h
    cases bp with
    | none => rfl
    | some md => rfl
  · intro hne
    cases bp with
    | none => simp [consumer_process_message] at hne
    | some md =>
      cases putOk with
      | false => simp [consumer_process_message, upload_to_s3] at hne
      | true =>
        exact ⟨rfl, md, rfl, by simp [consumer_process_message, upload_to_s3]⟩

/-- Witness for C3: a malformed-JSON message is not uploaded and not deleted. -/
theorem consumer_deletes_only_after_persist_witness :
    consumer_process_message true true ⟨2024, 1, 1⟩ ⟨"rh-1", "mid-1", none⟩ [] =
      (false, [], []) :=
  (consumer_deletes_only_after_persist true true ⟨2024, 1, 1⟩
    ⟨"rh-1", "mid-1", none⟩ []).1 rfl

/-- C6: a successful upload stores the message under the key computed from
the current UTC date and the message id, which equals the spec's
date-partitioned shape; persisting twice with the same id on the same UTC
date leaves exactly one object under that key, holding the latest body. -/
theorem consumer_key_per_id_per_day
    (now : UtcDate) (id : String) (d1 d2 : JVal) (objects : List (String × JVal)) :
    s3MessageKey now id = specMessageKey now.year now.month now.day id ∧
    (upload_to_s3 true now objects d1 id).2 = storePut objects (s3MessageKey now id) d1 ∧
    ((upload_to_s3 true now ((upload_to_s3 true now objects d1 id).2) d2 id).2.filter
        (fun kv => kv.1 == s3MessageKey now id)) = [(s3MessageKey now id, d2)] := by
  refine ⟨rfl, rfl, ?_⟩
  simp only [upload_to_s3, if_true]
  exact storePut_filter _ _ _

/-- C8: the count `poll_sqs` returns is the number of received messages whose
own processing succeeds — each message's success depends only on its own body
parse and S3/delete outcomes, so one bad message never suppresses the others
— and it never exceeds the number attempted. -/
theorem consumer_batch_isolation_count
    (now : UtcDate) (msgs : List (SqsMessage × Bool × Bool))
    (objects : List (String × JVal)) :
    (poll_sqs now (.ok msgs) objects).1 = (msgs.filter msgSuccess).length ∧
    (poll_sqs now (.ok msgs) objects).1 ≤ msgs.length := by
  have h : (poll_sqs now (.ok msgs) objects).1 = (msgs.filter msgSuccess).length := by
    have h0 := poll_sqs_count_loop now msgs (0, objects, [])
    simpa [poll_sqs] using h0
  exact ⟨h, h ▸ List.length_filter_le _ _⟩

/-- C9 counterexample: when the first SSM fetch raises, the cache stays
unpopulated and a second call fetches again, so a single process performs two
backing-store fetches. -/
theorem token_single_fetch_counterexample :
    (runGetApiToken [.error "ClientError", .error "ClientError"] ⟨none, 0⟩).fetches = 2 ∧
    ¬((runGetApiToken [.error "ClientError", .error "ClientError"] ⟨none, 0⟩).fetches ≤ 1) :=
  by decide

/-- C9 (amended): a call fetches only when the cache is unpopulated; a failed
fetch leaves the cache unpopulated (so a later call fetches again), while the
first fetch that succeeds with a non-empty token populates the cache, and
from then on every call returns the cached value and no further fetch ever
occurs. -/
theorem token_fetch_caches_nonempty
    (s : TokenProc) (v e : String) (w : Except String String)
    (ws : List (Except String String))
    (hv : v ≠ "") (h : pyTruthy s.cache = false) :
    ((callGetApiToken (.error e) s).2 = ⟨s.cache, s.fetches + 1⟩) ∧
    ((callGetApiToken (.ok v) s).2 = ⟨some v, s.fetches + 1⟩) ∧
    (callGetApiToken w ⟨some v, s.fetches + 1⟩ = (.ok v, ⟨some v, s.fetches + 1⟩)) ∧
    (runGetApiToken ws ⟨some v, s.fetches + 1⟩ = ⟨some v, s.fetches + 1⟩) := by
  have hv' : pyTruthy (some v) = true := by
    simp [pyTruthy]
    exact hv
  refine ⟨?_, ?_, ?_, ?_⟩
  · simp [callGetApiToken, get_api_token, h]
  · simp [callGetApiToken, get_api_token, h]
  · simp [callGetApiToken, get_api_token, hv']
  · exact runGetApiToken_fixed ws _ hv'

/-- Witness for C9 (amended): once "tok" is cached, later calls leave the
process state untouched. -/
theorem token_fetch_caches_nonempty_witness :
    runGetApiToken [.ok "y", .error "z"] ⟨some "tok", 1⟩ = ⟨some "tok", 1⟩ :=
  (token_fetch_caches_nonempty ⟨none, 0⟩ "tok" "err" (.error "x") [.ok "y", .error "z"]
    (by decide) rfl).2.2.2

end Relay
